import Mathlib

/-!
Verification development for the terminal line-editing and session-state
engine of a remote-shell pseudo-terminal front-end.  The definitions below
are a shallow embedding of the TypeScript class `TerminalProvider`
(src/terminalProvider.ts): strings are modelled as lists of characters
(matching JavaScript UTF-16 indexing on BMP text), the mutable class fields
become a state record `Term`, screen writes (`writeEmitter.fire`) and shell
stream writes (`sshStream.write`) are accumulated in observation lists, and
remote round trips are supplied as explicit parameters.
-/

/-- JavaScript strings are modelled as lists of characters. -/
abbrev Str := List Char

/-- Turn a Lean string literal into the character-list model. -/
def str (s : String) : Str := s.toList

/-- JavaScript `s.startsWith(p)`. -/
def jsStartsWith (s p : Str) : Bool := s.take p.length == p

/-- JavaScript `s.endsWith(p)`. -/
def jsEndsWith (s p : Str) : Bool := s.drop (s.length - p.length) == p

/-- JavaScript `s.slice(a, b)` for non-negative indices. -/
def sliceAB (s : Str) (a b : Nat) : Str := (s.drop a).take (b - a)

/-- The whitespace class used by JavaScript `trim` and `\s` (ASCII part). -/
def isJsSpace (c : Char) : Bool :=
  c == ' ' || c == '\t' || c == '\n' || c == '\r' || c == '\x0b' || c == '\x0c'

/-- JavaScript `s.trim()`. -/
def jsTrim (s : Str) : Str :=
  ((s.dropWhile isJsSpace).reverse.dropWhile isJsSpace).reverse

/-- Insert an element at an index (JavaScript `splice(i, 0, a)`; appends when
the index is at or past the end, as `splice` does). -/
def insertAt (l : List α) (i : Nat) (a : α) : List α := l.take i ++ a :: l.drop i

/-- Remove one element at an index (JavaScript `splice(i, 1)`). -/
def removeAt (l : List α) (i : Nat) : List α := l.take i ++ l.drop (i + 1)

/-- Remove `n` elements starting at `i` (JavaScript `splice(i, n)`). -/
def removeRange (l : List α) (i n : Nat) : List α := l.take i ++ l.drop (i + n)

/-- Read a numeric array entry; out-of-range reads yield 0 (used only where
the source always reads in range). -/
def jsGetNat (l : List Nat) (i : Nat) : Nat := l.getD i 0

/-- Write an array entry, extending the array when the index is at or past
the end (JavaScript index assignment). -/
def jsSet (dflt : α) (l : List α) (i : Nat) (v : α) : List α :=
  if i < l.length then l.set i v
  else l ++ List.replicate (i - l.length) dflt ++ [v]

/-- JavaScript `s[i]` character read (used only where the source reads in
range). -/
def jsCharAt (s : Str) (i : Nat) : Char := s.getD i (Char.ofNat 0)

/-- Split on a single separator character (JavaScript `split(sep)`). -/
def splitOnCharGo (sep : Char) : Str → Str → List Str
  | [], acc => [acc.reverse]
  | c :: rest, acc =>
    if c == sep then acc.reverse :: splitOnCharGo sep rest []
    else splitOnCharGo sep rest (c :: acc)

/-- JavaScript `s.split(sep)` for a one-character separator. -/
def splitOnChar (sep : Char) (s : Str) : List Str := splitOnCharGo sep s []

/-- Worker for `splitWS`, with fuel bounding the recursion. -/
def splitWSGo : Nat → Str → Str → List Str
  | 0, _, acc => [acc.reverse]
  | _ + 1, [], acc => [acc.reverse]
  | fuel + 1, c :: rest, acc =>
    if isJsSpace c then acc.reverse :: splitWSGo fuel (rest.dropWhile isJsSpace) []
    else splitWSGo fuel rest (c :: acc)

/-- JavaScript `s.split(/\s+/)`: splits on maximal whitespace runs, keeping
empty fragments at the ends exactly as the regex split does. -/
def splitWS (s : Str) : List Str := splitWSGo (s.length + 1) s []

/-- Does the chunk contain a newline (JavaScript `/\r\n|\r|\n/.test(s)`). -/
def containsNL (s : Str) : Bool := s.any (fun c => c == '\r' || c == '\n')

/-- Worker for `splitNL`. -/
def splitNLGo : Nat → Str → Str → List Str
  | 0, _, acc => [acc.reverse]
  | _ + 1, [], acc => [acc.reverse]
  | fuel + 1, '\r' :: '\n' :: rest, acc => acc.reverse :: splitNLGo fuel rest []
  | fuel + 1, '\r' :: rest, acc => acc.reverse :: splitNLGo fuel rest []
  | fuel + 1, '\n' :: rest, acc => acc.reverse :: splitNLGo fuel rest []
  | fuel + 1, c :: rest, acc => splitNLGo fuel rest (c :: acc)

/-- JavaScript `s.split(/\r\n|\r|\n/)`. -/
def splitNL (s : Str) : List Str := splitNLGo (s.length + 1) s []

/-- JavaScript `s.includes(sub)`. -/
def containsSub (sub : Str) : Str → Bool
  | [] => jsStartsWith [] sub
  | c :: rest => jsStartsWith (c :: rest) sub || containsSub sub rest

/-- Decimal digits of a natural number. -/
def natChars (n : Nat) : Str := Nat.toDigits 10 n

/-- Decimal rendering of an integer (for template interpolation). -/
def intChars (i : Int) : Str :=
  if i < 0 then '-' :: natChars i.natAbs else natChars i.toNat

/-- An ANSI escape `ESC [ n X` with a natural-number parameter. -/
def escN (n : Nat) (c : Char) : Str := str "\x1b[" ++ natChars n ++ [c]

/-- An ANSI escape `ESC [ i X` with an integer parameter, as produced by the
source's template strings (a negative value is rendered with its sign). -/
def escI (i : Int) (c : Char) : Str := str "\x1b[" ++ intChars i ++ [c]

/-- Events recording fire-and-forget interactions with collaborators
(directory-change resolution, file transfer, tree refresh). -/
inductive Ev where
  | cdRequest (arg : Option Str)
  | fileUpload (args : List Str)
  | fileDownload (args : List Str)
  | refresh (delay : Nat) (paths : List Str)
  deriving Repr, DecidableEq

/-- The mutable state of a `TerminalProvider` session, together with
observation lists: `screen` collects `writeEmitter.fire` output, `sent`
collects `sshStream.write` payloads, `events` collects collaborator
notifications and `oneShotCmds` collects one-shot exec round trips. -/
structure Term where
  connectionString : Str
  hostname : Str
  systemType : Str
  sshConnected : Bool
  cmd : Str
  isMultiLine : Bool
  multiLineBuffer : Str
  isEditorMode : Bool
  editorBuffer : Str
  cursorPosition : Nat
  currentLine : Nat
  currentColumn : Nat
  lineLengths : List Nat
  lineStartIndexes : List Nat
  lineDisplayWidths : List (List Nat)
  isInsertMode : Bool
  commandHistory : List Str
  historyIndex : Int
  currentWorkingDirectory : Str
  lastWorkingDirectory : Str
  screen : List Str
  sent : List Str
  events : List Ev
  oneShotCmds : List Str
  deriving Repr, DecidableEq

/-- Append one chunk to the terminal sink (`writeEmitter.fire`). -/
def fire (s : Term) (t : Str) : Term := { s with screen := s.screen ++ [t] }

/-- Append one chunk to the shell stream (`sshStream.write`). -/
def send (s : Term) (t : Str) : Term := { s with sent := s.sent ++ [t] }

/-- Record a collaborator event. -/
def pushEv (s : Term) (e : Ev) : Term := { s with events := s.events ++ [e] }

/-- The source's `getCharDisplayWidth`: CJK ideographs (basic block and
extension A) are 2 columns wide, everything else 1. -/
def getCharDisplayWidth (ch : Char) : Nat :=
  let code := ch.toNat
  if (0x4E00 ≤ code ∧ code ≤ 0x9FFF) ∨ (0x3400 ≤ code ∧ code ≤ 0x4DBF) then 2 else 1

/-- The source's `getDisplayWidthFrom`: total width from a column on. -/
def getDisplayWidthFrom (s : Term) (line column : Nat) : Nat :=
  ((s.lineDisplayWidths.getD line []).drop column).sum

/-- The source's `getDisplayWidthTo`: total width before a column. -/
def getDisplayWidthTo (s : Term) (line column : Nat) : Nat :=
  ((s.lineDisplayWidths.getD line []).take column).sum

/-- The source's `insertCharWithWidthTracking` (the returned width is unused
at every call site and is dropped here). -/
def insertCharWithWidthTracking (s : Term) (line column : Nat) (ch : Char) : Term :=
  let width := getCharDisplayWidth ch
  let base := if s.lineDisplayWidths.get? line = none
    then jsSet [] s.lineDisplayWidths line [] else s.lineDisplayWidths
  let row := base.getD line []
  { s with lineDisplayWidths := jsSet [] base line (insertAt row column width) }

/-- The source's `deleteCharWithWidthTracking` (returned width unused). -/
def deleteCharWithWidthTracking (s : Term) (line column : Nat) : Term :=
  match s.lineDisplayWidths.get? line with
  | none => s
  | some row =>
    if row.length ≤ column then s
    else { s with lineDisplayWidths := jsSet [] s.lineDisplayWidths line (removeAt row column) }

/-- The loop `for (i...) insertCharWithWidthTracking(line, column + i, data[i])`
used by the insert paths. -/
def insertWidthsLoop (s : Term) (line column : Nat) (data : Str) : Term :=
  (List.range data.length).foldl
    (fun t i => insertCharWithWidthTracking t line (column + i) (jsCharAt data i)) s

/-- Apply `f` to every entry with index `start` or later (the source's
`for (let i = start; i < arr.length; i++) arr[i] = f(arr[i])` loops). -/
def mapFromIdx (start : Nat) (f : Nat → Nat) (l : List Nat) : List Nat :=
  (List.zipWith (fun i v => if start ≤ i then f v else v) (List.range l.length) l)

/-- The source's `resetTerminalState`. -/
def resetTerminalState (s : Term) : Term :=
  { s with isEditorMode := false, isMultiLine := false, multiLineBuffer := [],
           editorBuffer := [], cmd := [], currentLine := 0, currentColumn := 0,
           cursorPosition := 0, lineStartIndexes := [0], lineLengths := [0],
           lineDisplayWidths := [[]] }

/-- The source's `getUsername`. -/
def getUsername (s : Term) : Str := (splitOnChar '@' s.connectionString).headD []

/-- The source's `isRootUser`. -/
def isRootUser (s : Term) : Bool := getUsername s == str "root"

/-- Node's `path.basename` for POSIX paths. -/
def jsBasename (p : Str) : Str :=
  let stripped := (p.reverse.dropWhile (fun c => c == '/')).reverse
  if stripped == [] then (if p == [] then [] else str "/")
  else (stripped.reverse.takeWhile (fun c => !(c == '/'))).reverse

/-- The source's `getPrompt` (the three boxed flavors share one template, as
do the three bracketed flavors). -/
def getPrompt (s : Term) : Str :=
  let username := getUsername s
  let hostname := s.hostname
  let promptSymbol := if isRootUser s then str "#" else str "$"
  let boxed := s.systemType == str "kali" || s.systemType == str "parrot" ||
    s.systemType == str "blackarch"
  let currentDir := if boxed then s.currentWorkingDirectory
    else (if s.currentWorkingDirectory == str "~" then str "~"
          else jsBasename s.currentWorkingDirectory)
  if boxed then
    let userSymbol := if isRootUser s then str "💀" else str "@"
    str "\x1b[34m┌──(\x1b[31m" ++ username ++ userSymbol ++ hostname ++
      str "\x1b[34m)-[\x1b[37m" ++ currentDir ++
      str "\x1b[34m]\r\n\x1b[34m└─\x1b[31m" ++ promptSymbol ++ str "\x1b[0m "
  else if s.systemType == str "ubuntu" then
    username ++ str "@" ++ hostname ++ str ":" ++ currentDir ++ promptSymbol ++ str " "
  else
    str "[" ++ username ++ str "@" ++ hostname ++ str " " ++ currentDir ++ str "]" ++
      promptSymbol ++ str " "

/-- The source's `calculatePromptVisibleLength`. -/
def calculatePromptVisibleLength (s : Term) : Nat :=
  let username := getUsername s
  let hostname := s.hostname
  let promptSymbol := if isRootUser s then str "#" else str "$"
  let boxed := s.systemType == str "kali" || s.systemType == str "parrot" ||
    s.systemType == str "blackarch"
  let currentDir := if boxed then s.currentWorkingDirectory
    else (if s.currentWorkingDirectory == str "~" then str "~"
          else jsBasename s.currentWorkingDirectory)
  if s.systemType == str "kali" then 4
  else if s.systemType == str "parrot" then 7
  else if s.systemType == str "blackarch" then 7
  else if s.systemType == str "ubuntu" then
    username.length + 1 + hostname.length + 1 + currentDir.length + promptSymbol.length + 1
  else if s.systemType == str "centos" || s.systemType == str "debian" then
    1 + username.length + 1 + hostname.length + 1 + currentDir.length + 1 +
      promptSymbol.length + 1
  else username.length + 1 + hostname.length + 2 + promptSymbol.length + 1

/-- The source's `addToHistory`: append unless blank or equal to the last
entry, resetting the navigation index on append. -/
def addToHistory (s : Term) (command : Str) : Term :=
  if jsTrim command ≠ [] ∧ s.commandHistory.getLast? ≠ some command then
    { s with commandHistory := s.commandHistory ++ [command], historyIndex := -1 }
  else s

/-- The source's `getPrevCommandFromHistory`, returning the new state and
the recalled entry. -/
def getPrevCommandFromHistory (s : Term) : Term × Option Str :=
  if s.commandHistory.length == 0 then (s, none)
  else
    let idx : Int := if s.historyIndex == -1 then (s.commandHistory.length : Int) - 1
      else max (s.historyIndex - 1) 0
    ({ s with historyIndex := idx }, s.commandHistory.get? idx.toNat)

/-- The source's `getNextCommandFromHistory`. -/
def getNextCommandFromHistory (s : Term) : Term × Option Str :=
  if s.commandHistory.length == 0 || s.historyIndex < 0 then (s, none)
  else
    let idx : Int := min (s.historyIndex + 1) (s.commandHistory.length : Int)
    ({ s with historyIndex := idx },
     if (s.commandHistory.length : Int) ≤ idx then some []
     else s.commandHistory.get? idx.toNat)

/-- Test whether the buffer ends in `p` followed by one of the newline
variants (a regex of the form `p(\r\n|\r|\n)$`). -/
def endsWithNL (b p : Str) : Bool :=
  jsEndsWith b (p ++ str "\r\n") || jsEndsWith b (p ++ str "\r") || jsEndsWith b (p ++ str "\n")

/-- The source's `detectEditorExitCommand`, matched over the accumulated
pass-through buffer.  Note that the patterns written `/\^Q/` in the source
match a literal caret followed by the letter, and `/^q$/` (unanchored flags)
matches only the exact buffer `q`. -/
def detectEditorExitCommand (buffer : Str) : Bool :=
  endsWithNL buffer (str ":q") || endsWithNL buffer (str ":q!") ||
  endsWithNL buffer (str ":wq") || endsWithNL buffer (str ":x") ||
  endsWithNL buffer (str ":wq!") || endsWithNL buffer (str ":qa") ||
  endsWithNL buffer (str ":qa!") ||
  jsEndsWith buffer (str "ZZ") || jsEndsWith buffer (str "ZQ") ||
  containsSub (str "^Q") buffer || containsSub (str "^X") buffer ||
  buffer == str "q" || containsSub (str "^C") buffer ||
  containsSub (str "\x03") buffer

/-- The editor command names recognized by `isEditorCommand`. -/
def editorCommands : List Str :=
  [str "vim", str "vi", str "nano", str "emacs", str "micro", str "neovim", str "nvim",
   str "ed", str "ex", str "view", str "vimdiff", str "gvim", str "mvim"]

/-- The source's `isEditorCommand`. -/
def isEditorCommand (command : Str) : Bool :=
  editorCommands.any (fun e => jsStartsWith command (e ++ [' ']) || command == e)

/-- The file-mutating command names recognized by `isFileOperationCommand`. -/
def fileCommands : List Str :=
  [str "touch", str "mkdir", str "rm", str "rmdir", str "mv", str "cp", str "ln",
   str "vim", str "vi", str "nano", str "emacs", str "micro", str "neovim", str "nvim",
   str "echo", str "cat", str "dd", str "tee", str "truncate",
   str "find", str "grep", str "sed", str "awk",
   str "tar", str "zip", str "unzip", str "gzip", str "gunzip",
   str "chmod", str "chown", str "chgrp", str "rz"]

/-- The source's `isFileOperationCommand`. -/
def isFileOperationCommand (command : Str) : Bool := fileCommands.contains command

/-- The option-skipping scan that finds the real command behind `sudo`. -/
def sudoPrimary : List Str → Str
  | [] => []
  | t :: rest =>
    if t == str "--" then rest.headD []
    else if t == str "-u" || t == str "--user" then
      match rest with
      | [] => []
      | _ :: rest2 => sudoPrimary rest2
    else if jsStartsWith t (str "-") then sudoPrimary rest
    else t

/-- Worker for `extractPathsFromCommand`, indexing as the source loop does. -/
def extractPathsGo (command : Str) (args : List Str) : Nat → Nat → List Str
  | 0, _ => []
  | fuel + 1, i =>
    match args.get? i with
    | none => []
    | some arg =>
      if jsStartsWith arg (str "-") then
        if i + 1 < args.length ∧ ¬(jsStartsWith (args.getD (i + 1) []) (str "-") = true) then
          if (command == str "cp" || command == str "mv" || command == str "ln" ||
              command == str "chmod" || command == str "chown" || command == str "chgrp") then
            args.getD (i + 1) [] :: extractPathsGo command args fuel (i + 2)
          else extractPathsGo command args fuel (i + 1)
        else extractPathsGo command args fuel (i + 1)
      else if (command == str "chmod" || command == str "chown" || command == str "chgrp") ∧ i = 0 then
        extractPathsGo command args fuel (i + 1)
      else if command == str "echo" ∧ ¬(containsSub (str ">") arg = true) then
        extractPathsGo command args fuel (i + 1)
      else arg :: extractPathsGo command args fuel (i + 1)

/-- The source's `extractPathsFromCommand`. -/
def extractPathsFromCommand (command : Str) (args : List Str) : List Str :=
  extractPathsGo command args (args.length + 1) 0

/-- The source's `processCommand`: dispatch a submitted command line.  The
asynchronous collaborator calls (`handleCdCommand`, file transfer, tree
refresh) are fire-and-forget in the source and are recorded as events. -/
def processCommand (s : Term) (fullCommand : Str) : Term :=
  let lines := splitOnChar ' ' fullCommand
  let baseCommand := jsTrim (lines.headD [])
  let args := (lines.drop 1).filter (fun l => jsTrim l ≠ [])
  let primaryCommand := if baseCommand == str "sudo" then sudoPrimary args else baseCommand
  let isFileOp := isFileOperationCommand primaryCommand
  if jsStartsWith baseCommand (str "cd") then pushEv s (Ev.cdRequest args.head?)
  else if jsStartsWith primaryCommand (str "rz") then pushEv s (Ev.fileUpload args)
  else if jsStartsWith primaryCommand (str "sz") then pushEv s (Ev.fileDownload args)
  else if jsStartsWith baseCommand (str "Ctrl-C") then
    if s.sshConnected then send s (str "\x03") else s
  else if isEditorCommand primaryCommand then
    let s := { s with isEditorMode := true }
    if s.sshConnected then send s (fullCommand ++ str "\n") else s
  else
    if s.sshConnected then
      let s := send s (fullCommand ++ str "\n")
      if isFileOp then
        let paths := extractPathsFromCommand primaryCommand args
        let delayTime := if (primaryCommand == str "mkdir" || primaryCommand == str "touch" ||
            primaryCommand == str "cp" || primaryCommand == str "mv") then 1000 else 500
        pushEv s (Ev.refresh delayTime paths)
      else s
    else fire s (str "\r\nSSH connection is not established.\r\n")

/-- The source's `getLineLength`. -/
def getLineLength (s : Term) (lineIndex : Nat) : Nat :=
  if lineIndex < s.lineLengths.length then jsGetNat s.lineLengths lineIndex else 0

/-- The source's `getCurrentLineLength`. -/
def getCurrentLineLength (s : Term) : Nat := getLineLength s s.currentLine

/-- The source's `renderRemainingLine`: clear to end of line, re-echo the
suffix after the cursor, and move the cursor back by its display width. -/
def renderRemainingLine (s : Term) : Term :=
  let s := fire s (str "\x1b[K")
  if s.isMultiLine then
    if s.currentColumn < jsGetNat s.lineLengths s.currentLine then
      let a := jsGetNat s.lineStartIndexes s.currentLine + s.currentColumn
      let tail := match s.lineStartIndexes.get? (s.currentLine + 1) with
        | some b => sliceAB s.multiLineBuffer a b
        | none => s.multiLineBuffer.drop a
      let s := fire s tail
      let remainingContentWidth := getDisplayWidthFrom s s.currentLine s.currentColumn
      fire s (escN remainingContentWidth 'D')
    else s
  else
    if s.cursorPosition < s.cmd.length then
      let s := fire s (s.cmd.drop s.cursorPosition)
      let remainingContentWidth := getDisplayWidthFrom s 0 s.cursorPosition
      fire s (escN remainingContentWidth 'D')
    else s

/-- The source's `clearMultiLineDisplay`. -/
def clearMultiLineDisplay (s : Term) : Term :=
  if s.isMultiLine then
    let linesToClear := s.lineLengths.length - 1
    let s := if 0 < linesToClear ∧ 0 < s.currentLine then
        fire (fire s (escN s.currentLine 'A')) (str "\x1b[0J")
      else s
    let s := fire s (str "\r")
    fire s (escN (calculatePromptVisibleLength s) 'C')
  else s

/-- The source's `moveToPosition`, taking the target as integers because one
call site can pass -1 (the source clamps with `Math.max`/`Math.min`). -/
def moveToPosition (s : Term) (tL0 tC0 : Int) : Term :=
  if !s.isMultiLine then s else
  let tL : Nat := (max 0 (min tL0 ((s.lineStartIndexes.length : Int) - 1))).toNat
  let tC : Nat := (max 0 (min tC0 ((getLineLength s tL : Nat) : Int))).toNat
  let lineDiff : Int := (tL : Int) - (s.currentLine : Int)
  let columnDiff : Int := (tC : Int) - (s.currentColumn : Int)
  let displayWidthDiff : Int :=
    (getDisplayWidthTo s tL tC : Int) - (getDisplayWidthTo s s.currentLine s.currentColumn : Int)
  let s1 := if lineDiff ≠ 0 then
      (if 0 < lineDiff then fire s (escI lineDiff 'B') else fire s (escI (-lineDiff) 'A'))
    else s
  let s2 :=
    if columnDiff ≠ 0 then
      if 0 < columnDiff then
        let sa := if lineDiff < 0 then
            let sb := fire s1 (str "\r")
            if tL = 0 then
              let promptVisibleLength := calculatePromptVisibleLength s1
              if 0 < promptVisibleLength then fire sb (escN promptVisibleLength 'C') else sb
            else fire sb (str "\x1b[2C")
          else s1
        fire sa (escI displayWidthDiff 'C')
      else
        if 0 < lineDiff then fire (fire s1 (str "\r")) (str "\x1b[2C")
        else fire s1 (escI (-displayWidthDiff) 'D')
    else
      if s.currentLine = 0 ∧ 0 < lineDiff then
        let sb := fire (fire s1 (str "\r")) (str "\x1b[2C")
        if tC ≠ 0 then fire sb (escN (getDisplayWidthTo s tL tC) 'C') else sb
      else if lineDiff < 0 ∧ tL = 0 then
        let sb := fire s1 (str "\r")
        let promptVisibleLength := calculatePromptVisibleLength s1
        let sb := if 0 < promptVisibleLength then fire sb (escN promptVisibleLength 'C') else sb
        if tC ≠ 0 then fire sb (escN (getDisplayWidthTo s tL tC) 'C') else sb
      else if lineDiff < 0 ∧ tL ≠ 0 then
        let sb := fire (fire s1 (str "\r")) (str "\x1b[2C")
        if tC ≠ 0 then fire sb (escN (getDisplayWidthTo s tL tC) 'C') else sb
      else
        let sb := fire (fire s1 (str "\r")) (str "\x1b[2C")
        if tC ≠ 0 then fire sb (escN (getDisplayWidthTo s tL tC) 'C') else sb
  { s2 with currentLine := tL, currentColumn := tC, cursorPosition := tC }

/-- The source's `handleCrossLineMovement`. -/
def handleCrossLineMovement (s : Term) (direction : Str) : Term :=
  if !s.isMultiLine then s else
  if direction == str "left" then
    if 0 < s.currentColumn then
      moveToPosition s (s.currentLine : Int) ((s.currentColumn : Int) - 1)
    else if 0 < s.currentLine then
      let prevLineLength := getLineLength s (s.currentLine - 1)
      moveToPosition s ((s.currentLine : Int) - 1) (prevLineLength : Int)
    else s
  else if direction == str "right" then
    let currentLineLength := getLineLength s s.currentLine
    if s.currentColumn < currentLineLength then
      moveToPosition s (s.currentLine : Int) ((s.currentColumn : Int) + 1)
    else if s.currentLine < s.lineStartIndexes.length - 1 then
      moveToPosition s ((s.currentLine : Int) + 1) 0
    else s
  else if direction == str "up" then
    if 0 < s.currentLine then
      let prevLineLength := getLineLength s (s.currentLine - 1)
      let targetColumn := min s.currentColumn prevLineLength
      let s := { s with currentColumn := targetColumn, cursorPosition := targetColumn }
      moveToPosition s ((s.currentLine : Int) - 1) (targetColumn : Int)
    else s
  else if direction == str "down" then
    if s.currentLine < s.lineStartIndexes.length - 1 then
      let nextLineLength := getLineLength s (s.currentLine + 1)
      let targetColumn := min s.currentColumn nextLineLength
      let s := { s with currentColumn := targetColumn, cursorPosition := targetColumn }
      moveToPosition s ((s.currentLine : Int) + 1) (targetColumn : Int)
    else s
  else s

/-- The source's `redrawFromLine`. -/
def redrawFromLine (s0 : Term) (startLine : Nat) : Term :=
  (List.range' startLine (s0.lineLengths.length - startLine)).foldl
    (fun s i =>
      let s := fire s (str "\r")
      let s := fire s (str "\x1b[K")
      let s := if 0 < i then fire s (str "> ") else s
      let lineContent := sliceAB s.multiLineBuffer (jsGetNat s.lineStartIndexes i)
        (jsGetNat s.lineStartIndexes i + jsGetNat s.lineLengths i)
      let s := fire s lineContent
      let s := { s with currentColumn := jsGetNat s.lineLengths i,
                        cursorPosition := jsGetNat s.lineLengths i }
      if i < s0.lineLengths.length - 1 then
        let s := fire s (str "\r\n")
        { s with currentLine := s.currentLine + 1 }
      else s) s0

/-- The source's `clearCurrentLineAndReturn`. -/
def clearCurrentLineAndReturn (s : Term) (isRetuanLastLine : Bool) : Term :=
  if !s.isMultiLine then s
  else if s.lineLengths.length = 1 ∨ s.currentLine < 1 then s
  else
    let deleteLine := s.currentLine
    let cacheEndLine := s.lineLengths.length - 1
    let s := { s with lineLengths := removeAt s.lineLengths deleteLine,
                      lineStartIndexes := removeAt s.lineStartIndexes deleteLine,
                      lineDisplayWidths := removeAt s.lineDisplayWidths deleteLine }
    let s :=
      if 1 ≤ s.currentLine ∧ s.currentLine < cacheEndLine then
        let s := redrawFromLine s deleteLine
        let s := fire s (str "\x1b[1E\x1b[2K")
        let s := fire s (str "\x1b[1A")
        let s := fire s (str "\r")
        let s := fire s (str "\x1b[2C")
        let dispWidth := getDisplayWidthTo s s.currentLine s.currentColumn
        fire s (escN dispWidth 'C')
      else fire s (str "\x1b[2K")
    if isRetuanLastLine then
      let v := jsGetNat s.lineLengths (deleteLine - 1)
      let s := { s with currentColumn := v, cursorPosition := v }
      moveToPosition s ((deleteLine : Int) - 1) (v : Int)
    else
      let v := jsGetNat s.lineLengths deleteLine
      let s := { s with currentColumn := v, cursorPosition := v }
      moveToPosition s (deleteLine : Int) 0

/-- The source's `insertEmptyLineAfter`. -/
def insertEmptyLineAfter (s : Term) : Term :=
  if ((s.lineStartIndexes.length : Int) - 1) ≤ (s.currentLine : Int) then s
  else
    let currentLineEnd := jsGetNat s.lineStartIndexes s.currentLine +
      jsGetNat s.lineLengths s.currentLine
    let nextLineStart := jsGetNat s.lineStartIndexes (s.currentLine + 1)
    let afterContent := s.multiLineBuffer.drop nextLineStart
    let s := { s with multiLineBuffer := s.multiLineBuffer.take currentLineEnd ++ afterContent }
    let newLineIndex := s.currentLine + 1
    let s := { s with lineStartIndexes := insertAt s.lineStartIndexes newLineIndex currentLineEnd,
                      lineLengths := insertAt s.lineLengths newLineIndex 0,
                      lineDisplayWidths := insertAt s.lineDisplayWidths newLineIndex [] }
    let s := { s with currentLine := newLineIndex, currentColumn := 0, cursorPosition := 0 }
    let s := fire s (str "\n")
    let s := redrawFromLine s newLineIndex
    let s := { s with currentColumn := 0, cursorPosition := 0 }
    moveToPosition s (newLineIndex : Int) 0

/-- The source's `splitLineAtCursor`.  When the cursor is on the last line,
`lineStartIndexes[currentLine + 1]` is `undefined` and the source's
`slice(undefined)` returns the whole buffer; that behavior is kept. -/
def splitLineAtCursor (s : Term) : Term :=
  if ((s.lineLengths.length : Int) - 1) < (s.currentLine : Int) then s
  else
    let currentLineStart := jsGetNat s.lineStartIndexes s.currentLine
    let splitPosition := currentLineStart + s.currentColumn
    let movedContent := sliceAB s.multiLineBuffer splitPosition
      (currentLineStart + jsGetNat s.lineLengths s.currentLine)
    let afterContent := match s.lineStartIndexes.get? (s.currentLine + 1) with
      | some n => s.multiLineBuffer.drop n
      | none => s.multiLineBuffer
    let newBuf := s.multiLineBuffer.take splitPosition ++ movedContent ++ afterContent
    let s := { s with multiLineBuffer := newBuf }
    let s := { s with lineLengths := jsSet 0 s.lineLengths s.currentLine s.currentColumn }
    let s := match s.lineDisplayWidths.get? s.currentLine with
      | some row =>
        let trimmedRow := row.take s.currentColumn
        { s with lineDisplayWidths := jsSet [] s.lineDisplayWidths s.currentLine trimmedRow }
      | none => s
    let newLineIndex := s.currentLine + 1
    let s := { s with lineStartIndexes := insertAt s.lineStartIndexes newLineIndex splitPosition,
                      lineLengths := insertAt s.lineLengths newLineIndex movedContent.length }
    let movedWidths := movedContent.map getCharDisplayWidth
    let s := { s with lineDisplayWidths := insertAt s.lineDisplayWidths newLineIndex movedWidths }
    let s := renderRemainingLine s
    let s := { s with currentLine := newLineIndex, currentColumn := 0, cursorPosition := 0 }
    let s := fire s (str "\n")
    let s := redrawFromLine s newLineIndex
    moveToPosition s (newLineIndex : Int) (movedContent.length : Int)

/-- The source's `insertTextAtCursor`. -/
def insertTextAtCursor (s : Term) (text : Str) : Term :=
  if s.isMultiLine then
    let currentPos := jsGetNat s.lineStartIndexes s.currentLine + s.currentColumn
    let newBuf := s.multiLineBuffer.take currentPos ++ text ++ s.multiLineBuffer.drop currentPos
    let s := { s with multiLineBuffer := newBuf }
    let s := insertWidthsLoop s s.currentLine s.currentColumn text
    let newLen := jsGetNat s.lineLengths s.currentLine + text.length
    let s := { s with lineLengths := jsSet 0 s.lineLengths s.currentLine newLen }
    let s := { s with currentColumn := s.currentColumn + text.length,
                      cursorPosition := s.cursorPosition + text.length }
    let shifted := mapFromIdx (s.currentLine + 1) (fun v => v + text.length) s.lineStartIndexes
    let s := { s with lineStartIndexes := shifted }
    let s := fire s text
    renderRemainingLine s
  else
    let s := { s with cmd := s.cmd.take s.cursorPosition ++ text ++ s.cmd.drop s.cursorPosition }
    let s := insertWidthsLoop s 0 s.cursorPosition text
    let newLen := jsGetNat s.lineLengths 0 + text.length
    let s := { s with lineLengths := jsSet 0 s.lineLengths 0 newLen }
    let s := { s with currentColumn := s.currentColumn + text.length,
                      cursorPosition := s.cursorPosition + text.length }
    let s := fire s text
    renderRemainingLine s

/-- The source's `handleMultiLinePaste`.  The `isNaN` test on an array read
corresponds to reading past the end of `lineLengths`. -/
def handleMultiLinePaste (s : Term) (lines0 : List Str) : Term :=
  if lines0.length = 0 then s
  else
    let startLine := s.currentLine
    let finalPasteLine : Int := (startLine : Int) + lines0.length - 1
    let finalPasteCol : Int := ((lines0.getLastD []).length : Int) - 1
    let cached := (List.range' (startLine + 1) (s.lineStartIndexes.length - (startLine + 1))).map
      (fun i =>
        if i < s.lineStartIndexes.length - 1 then
          sliceAB s.multiLineBuffer (jsGetNat s.lineStartIndexes i)
            (jsGetNat s.lineStartIndexes (i + 1))
        else s.multiLineBuffer.drop (jsGetNat s.lineStartIndexes i))
    let lines := lines0 ++ cached
    let truncated := match s.lineStartIndexes.get? (startLine + 1) with
      | some n => s.multiLineBuffer.take n
      | none => s.multiLineBuffer
    let s := { s with multiLineBuffer := truncated }
    let length := s.lineStartIndexes.length
    let s := { s with
        lineStartIndexes := removeRange s.lineStartIndexes (startLine + 1) (length - startLine - 1),
        lineLengths := removeRange s.lineLengths (startLine + 1) (length - startLine - 1),
        lineDisplayWidths := removeRange s.lineDisplayWidths (startLine + 1) (length - startLine - 1) }
    let s := (List.range lines.length).foldl
      (fun t i =>
        let t := { t with currentLine := startLine + i }
        let t := if t.lineLengths.get? t.currentLine = none then
            let t := { t with lineLengths := jsSet 0 t.lineLengths t.currentLine 0 }
            if 0 < t.currentLine then
              let prevEnd := jsGetNat t.lineStartIndexes (t.currentLine - 1) +
                jsGetNat t.lineLengths (t.currentLine - 1)
              { t with lineStartIndexes := jsSet 0 t.lineStartIndexes t.currentLine prevEnd }
            else { t with lineStartIndexes := jsSet 0 t.lineStartIndexes t.currentLine 0 }
          else t
        let t := insertTextAtCursor t (lines.getD i [])
        if i < lines.length - 1 then
          let t := fire t (str "\r\n> ")
          { t with currentColumn := 0, cursorPosition := 0 }
        else t) s
    moveToPosition s finalPasteLine finalPasteCol

/-- The fixed command-name list used by tab completion. -/
def commonCommands : List Str :=
  [str "ls", str "cd", str "pwd", str "cat", str "mkdir", str "rm", str "cp", str "mv",
   str "sz", str "rz", str "vim", str "nano", str "grep", str "find", str "chmod",
   str "ssh", str "scp", str "tar", str "ps", str "top", str "kill", str "df", str "du",
   str "systemctl", str "git", str "docker", str "npm", str "yarn", str "pip"]

/-- The systemctl sub-command list used by tab completion. -/
def systemctlSubCommands : List Str :=
  [str "start", str "stop", str "restart", str "status",
   str "enable", str "disable", str "list-units", str "reload"]

/-- Find the position of the last newline in a whitespace run, for the
regex `\\\s*\n` (greedy `\s*` backtracks to the last `\n` of the run). -/
def lastNLPos (run : Str) : Option Nat :=
  match run.reverse.findIdx? (fun c => c == '\n') with
  | some r => some (run.length - 1 - r)
  | none => none

/-- Worker for `replaceBackslashNL`. -/
def replBsNLGo : Nat → Str → Str
  | 0, s => s
  | _ + 1, [] => []
  | fuel + 1, c :: rest =>
    if c == '\\' then
      let run := rest.takeWhile isJsSpace
      match lastNLPos run with
      | some k => ' ' :: replBsNLGo fuel (rest.drop (k + 1))
      | none => c :: replBsNLGo fuel rest
    else c :: replBsNLGo fuel rest

/-- JavaScript `s.replace(/\\\s*\n/g, ' ')`. -/
def replaceBackslashNL (s : Str) : Str := replBsNLGo (s.length + 1) s

/-- JavaScript `s.replace(/\n/g, ' ')`. -/
def replaceNL (s : Str) : Str := s.map (fun c => if c == '\n' then ' ' else c)

/-- The source's `getTabSuggestions`.  The remote directory listing obtained
through SFTP `readdir` is supplied as the parameter `remoteFiles`. -/
def getTabSuggestions (s : Term) (remoteFiles : List Str) (input : Str)
    (fullContext : Option Str) : List Str :=
  if !s.sshConnected then []
  else
    let contextToAnalyze := fullContext.getD input
    let singleLine := jsTrim (replaceNL (replaceBackslashNL contextToAnalyze))
    let words := splitWS singleLine
    let lastWord := (words.getLast?).getD []
    let rest := words.dropLast
    if rest.length = 0 then
      commonCommands.filter (fun c => jsStartsWith c lastWord)
    else if rest.headD [] == str "systemctl" ∧ 1 < rest.length then
      systemctlSubCommands.filter (fun c => jsStartsWith c lastWord)
    else
      remoteFiles.filter (fun f => jsStartsWith f lastWord)

/-- The source's `handleInput`, the top-level key dispatcher.  `remoteFiles`
supplies the SFTP directory listing consumed by path tab-completion. -/
def handleInput (remoteFiles : List Str) (s0 : Term) (data : Str) : Term :=
  let code := match data.head? with
    | some c => c.toNat
    | none => 0
  if s0.isEditorMode then
    let s := { s0 with editorBuffer := s0.editorBuffer ++ data }
    let s := if detectEditorExitCommand s.editorBuffer then
        pushEv (resetTerminalState s) (Ev.refresh 500 [])
      else s
    if s.sshConnected then send s data else s
  else
  if jsStartsWith data (str "\x1b[200~") && jsEndsWith data (str "\x1b[201~") then
    let pasteContent := sliceAB data 6 (data.length - 6)
    if containsNL pasteContent then
      let tmpdatas := splitNL pasteContent
      let s := if 1 < tmpdatas.length then { s0 with isMultiLine := true } else s0
      handleMultiLinePaste s tmpdatas
    else insertTextAtCursor s0 pasteContent
  else
  if jsEndsWith data (str "\\") && data.length == 1 then
    let s := { s0 with isMultiLine := true }
    if s.lineLengths.length = 0 then
      let s := { s with multiLineBuffer := s.multiLineBuffer ++ s.cmd ++ data.dropLast,
                        cmd := [] }
      let s := { s with currentLine := s.currentLine + 1, currentColumn := 0,
                        cursorPosition := 0 }
      let newIdx := jsSet 0 s.lineStartIndexes s.currentLine s.multiLineBuffer.length
      let s := { s with lineStartIndexes := newIdx }
      let s := { s with lineLengths := jsSet 0 s.lineLengths s.currentLine 0 }
      let s := { s with lineDisplayWidths := jsSet [] s.lineDisplayWidths s.currentLine [] }
      fire s (str "\r\n> ")
    else if s.currentLine < s.lineLengths.length - 1 then
      if s.currentColumn = getCurrentLineLength s then insertEmptyLineAfter s
      else splitLineAtCursor s
    else
      if s.currentColumn = getCurrentLineLength s then
        let s := { s with multiLineBuffer := s.multiLineBuffer ++ data.dropLast, cmd := [] }
        let s := { s with currentLine := s.currentLine + 1, currentColumn := 0,
                          cursorPosition := 0 }
        let newIdx := jsSet 0 s.lineStartIndexes s.currentLine s.multiLineBuffer.length
        let s := { s with lineStartIndexes := newIdx }
        let s := { s with lineLengths := jsSet 0 s.lineLengths s.currentLine 0 }
        let s := { s with lineDisplayWidths := jsSet [] s.lineDisplayWidths s.currentLine [] }
        fire s (str "\r\n> ")
      else splitLineAtCursor s
  else
  let multiRes : Option Term :=
    if s0.isMultiLine then
      let isSpecialKey := (jsStartsWith data (str "\x1b") &&
          !(jsStartsWith data (str "\x1b[2~"))) ||
        code == 127 || code == 3 || code == 8 || code == 9 || code == 12 || code == 13
      if !isSpecialKey then
        if containsNL data then
          let tmpdatas := splitNL data
          let s := if 1 < tmpdatas.length then { s0 with isMultiLine := true } else s0
          some (handleMultiLinePaste s tmpdatas)
        else if s0.currentLine < s0.lineLengths.length - 1 then
          let s := fire s0 data
          let s := insertWidthsLoop s s.currentLine s.currentColumn data
          let pos := jsGetNat s.lineStartIndexes s.currentLine + s.currentColumn
          let newBuf := s.multiLineBuffer.take pos ++ data ++ s.multiLineBuffer.drop pos
          let s := { s with multiLineBuffer := newBuf }
          let newLen := jsGetNat s.lineLengths s.currentLine + data.length
          let s := { s with lineLengths := jsSet 0 s.lineLengths s.currentLine newLen }
          let s := { s with currentColumn := s.currentColumn + data.length,
                            cursorPosition := s.cursorPosition + data.length }
          let shifted := mapFromIdx (s.currentLine + 1) (fun v => v + 1) s.lineStartIndexes
          let s := { s with lineStartIndexes := shifted }
          some (renderRemainingLine s)
        else
          if s0.currentColumn = getCurrentLineLength s0 then
            let s := fire s0 data
            let s := insertWidthsLoop s s.currentLine s.currentColumn data
            let s := { s with multiLineBuffer := s.multiLineBuffer ++ data }
            let s := { s with currentColumn := s.currentColumn + data.length,
                              cursorPosition := s.cursorPosition + data.length }
            let newLen := s.multiLineBuffer.length - jsGetNat s.lineStartIndexes s.currentLine
            some { s with lineLengths := jsSet 0 s.lineLengths s.currentLine newLen }
          else
            let s := fire s0 data
            let s := insertWidthsLoop s s.currentLine s.currentColumn data
            let pos := jsGetNat s.lineStartIndexes s.currentLine + s.currentColumn
            let newBuf := s.multiLineBuffer.take pos ++ data ++ s.multiLineBuffer.drop pos
            let s := { s with multiLineBuffer := newBuf }
            let newLen := jsGetNat s.lineLengths s.currentLine + data.length
            let s := { s with lineLengths := jsSet 0 s.lineLengths s.currentLine newLen }
            let s := { s with currentColumn := s.currentColumn + data.length,
                              cursorPosition := s.cursorPosition + data.length }
            some (renderRemainingLine s)
      else none
    else none
  match multiRes with
  | some s => s
  | none =>
  if code == 3 then
    let s := if s0.isMultiLine then clearMultiLineDisplay s0 else s0
    let s := processCommand s (str "Ctrl-C")
    resetTerminalState s
  else if code == 13 then
    if s0.isMultiLine then
      let s := if s0.currentLine < s0.lineLengths.length - 1 then
          moveToPosition s0 ((s0.lineLengths.length : Int) - 1)
            ((jsGetNat s0.lineLengths (s0.lineLengths.length - 1) : Nat) : Int)
        else s0
      let s := fire s (str "\r\n")
      let s := processCommand s (jsTrim s.multiLineBuffer)
      let s := addToHistory s (jsTrim s.multiLineBuffer)
      if !s.isEditorMode then resetTerminalState s else s
    else
      let s := fire s0 (str "\r\n")
      let s := processCommand s s.cmd
      let s := addToHistory s s.cmd
      if !s.isEditorMode then resetTerminalState s else s
  else if code == 127 then
    if s0.isMultiLine then
      if 0 < s0.multiLineBuffer.length then
        if 0 < s0.currentColumn ∧ s0.currentColumn < getCurrentLineLength s0 then
          let charToDelete := jsCharAt s0.multiLineBuffer
            (jsGetNat s0.lineStartIndexes s0.currentLine + s0.currentColumn - 1)
          let charWidth := getCharDisplayWidth charToDelete
          let pos := jsGetNat s0.lineStartIndexes s0.currentLine + s0.currentColumn
          let newBuf := s0.multiLineBuffer.take (pos - 1) ++ s0.multiLineBuffer.drop pos
          let s := { s0 with multiLineBuffer := newBuf }
          let s := deleteCharWithWidthTracking s s.currentLine (s.currentColumn - 1)
          let s := { s with currentColumn := s.currentColumn - 1 }
          let newLen := jsGetNat s.lineLengths s.currentLine - 1
          let s := { s with lineLengths := jsSet 0 s.lineLengths s.currentLine newLen }
          let shifted := mapFromIdx (s.currentLine + 1) (fun v => v - 1) s.lineStartIndexes
          let s := { s with lineStartIndexes := shifted }
          let s := fire s (escN charWidth 'D')
          let s := fire s (escN charWidth 'X')
          renderRemainingLine s
        else if s0.currentColumn = 0 ∧ 0 < s0.currentLine ∧
            s0.lineLengths.get? s0.currentLine = some 0 then
          clearCurrentLineAndReturn s0 true
        else if s0.currentColumn = 0 ∧ ¬(s0.lineLengths.get? s0.currentLine = some 0) then
          s0
        else
          let charToDelete := jsCharAt s0.multiLineBuffer
            (jsGetNat s0.lineStartIndexes s0.currentLine + s0.currentColumn - 1)
          let charWidth := getCharDisplayWidth charToDelete
          let pos := jsGetNat s0.lineStartIndexes s0.currentLine + s0.currentColumn
          let newBuf := s0.multiLineBuffer.take (pos - 1) ++ s0.multiLineBuffer.drop pos
          let s := { s0 with multiLineBuffer := newBuf }
          let s := deleteCharWithWidthTracking s s.currentLine (s.currentColumn - 1)
          let s := { s with currentColumn := s.currentColumn - 1 }
          let newLen := jsGetNat s.lineLengths s.currentLine - 1
          let s := { s with lineLengths := jsSet 0 s.lineLengths s.currentLine newLen }
          let shifted := mapFromIdx (s.currentLine + 1) (fun v => v - 1) s.lineStartIndexes
          let s := { s with lineStartIndexes := shifted }
          let s := fire s (escN charWidth 'D')
          let s := fire s (escN charWidth 'X')
          renderRemainingLine s
      else s0
    else
      if 0 < s0.cmd.length ∧ 0 < s0.cursorPosition then
        let charToDelete := jsCharAt s0.cmd (s0.cursorPosition - 1)
        let charWidth := getCharDisplayWidth charToDelete
        let newCmd := s0.cmd.take (s0.cursorPosition - 1) ++ s0.cmd.drop s0.cursorPosition
        let s := { s0 with cmd := newCmd }
        let s := { s with multiLineBuffer := s.cmd }
        let s := deleteCharWithWidthTracking s 0 (s.cursorPosition - 1)
        let s := { s with cursorPosition := s.cursorPosition - 1,
                          currentColumn := s.currentColumn - 1 }
        let newLen := jsGetNat s.lineLengths 0 - 1
        let s := { s with lineLengths := jsSet 0 s.lineLengths 0 newLen }
        let s := fire s (escN charWidth 'D')
        let s := fire s (escN charWidth 'X')
        renderRemainingLine s
      else s0
  else if code == 27 then
    if data == str "\x1b" then resetTerminalState s0
    else if data == str "\x1b[A" || data == str "\x1bOA" then
      if s0.isMultiLine then handleCrossLineMovement s0 (str "up")
      else
        match getPrevCommandFromHistory s0 with
        | (s1, some prevCmd) =>
          let s := if 0 < s1.cmd.length then fire s1 (escN s1.cmd.length 'D') else s1
          let s := fire s (str "\x1b[K")
          let s := fire s prevCmd
          let s := { s with cmd := prevCmd }
          { s with cursorPosition := s.cmd.length }
        | (s1, none) => s1
    else if data == str "\x1b[B" || data == str "\x1bOB" then
      if s0.isMultiLine then handleCrossLineMovement s0 (str "down")
      else
        match getNextCommandFromHistory s0 with
        | (s1, some nextCmd) =>
          let s := if 0 < s1.cmd.length then fire s1 (escN s1.cmd.length 'D') else s1
          let s := fire s (str "\x1b[K")
          let s := fire s nextCmd
          let s := { s with cmd := nextCmd }
          { s with cursorPosition := s.cmd.length }
        | (s1, none) => s1
    else if data == str "\x1b[D" || data == str "\x1bOD" then
      if s0.isMultiLine then handleCrossLineMovement s0 (str "left")
      else
        if 0 < s0.cursorPosition then
          let prevCharWidth := getCharDisplayWidth (jsCharAt s0.cmd (s0.cursorPosition - 1))
          let s := { s0 with cursorPosition := s0.cursorPosition - 1,
                             currentColumn := s0.currentColumn - 1 }
          fire s (escN prevCharWidth 'D')
        else s0
    else if data == str "\x1b[C" || data == str "\x1bOC" then
      if s0.isMultiLine then handleCrossLineMovement s0 (str "right")
      else
        if s0.cursorPosition < s0.cmd.length then
          let currentCharWidth := getCharDisplayWidth (jsCharAt s0.cmd s0.cursorPosition)
          let s := { s0 with cursorPosition := s0.cursorPosition + 1,
                             currentColumn := s0.currentColumn + 1 }
          fire s (escN currentCharWidth 'C')
        else s0
    else if data == str "\x1bOF" || data == str "\x1b[F" || data == str "\x1b[4~" then
      if s0.isMultiLine then
        let currentLineLength := getCurrentLineLength s0
        moveToPosition s0 (s0.currentLine : Int) (currentLineLength : Int)
      else
        let displayWidthToMove := getDisplayWidthFrom s0 0 s0.cursorPosition
        let s := if 0 < displayWidthToMove then fire s0 (escN displayWidthToMove 'C') else s0
        { s with cursorPosition := s.cmd.length, currentColumn := s.cmd.length }
    else if data == str "\x1bOH" || data == str "\x1b[H" || data == str "\x1b[1~" then
      if s0.isMultiLine then moveToPosition s0 (s0.currentLine : Int) 0
      else
        let displayWidthToMove := getDisplayWidthTo s0 0 s0.cursorPosition
        let s := if 0 < displayWidthToMove then fire s0 (escN displayWidthToMove 'D') else s0
        { s with cursorPosition := 0, currentColumn := 0 }
    else if data == str "\x1b[2~" then
      let s := { s0 with isInsertMode := !s0.isInsertMode }
      fire s (if s.isInsertMode then str "\x1b[4 q" else str "\x1b[2 q")
    else if data == str "\x1b[3~" then
      if s0.isMultiLine then
        if s0.currentColumn < jsGetNat s0.lineLengths s0.currentLine ∧
            0 < jsGetNat s0.lineLengths s0.currentLine then
          let s := deleteCharWithWidthTracking s0 s0.currentLine s0.currentColumn
          let pos := jsGetNat s.lineStartIndexes s.currentLine + s.currentColumn
          let newBuf := s.multiLineBuffer.take pos ++ s.multiLineBuffer.drop (pos + 1)
          let s := { s with multiLineBuffer := newBuf }
          let s := fire s (str "\x1b[P")
          let newLen := jsGetNat s.lineLengths s.currentLine - 1
          let s := { s with lineLengths := jsSet 0 s.lineLengths s.currentLine newLen }
          let shifted := mapFromIdx (s.currentLine + 1) (fun v => v - 1) s.lineStartIndexes
          let s := { s with lineStartIndexes := shifted }
          renderRemainingLine s
        else if s0.currentColumn = 0 ∧ s0.lineLengths.get? s0.currentLine = some 0 ∧
            ((s0.currentLine : Int) + 1 ≤ (s0.lineLengths.length : Int) - 1) then
          clearCurrentLineAndReturn s0 false
        else if s0.lineLengths.get? s0.currentLine = some s0.currentColumn ∧
            0 < s0.currentColumn ∧
            ((s0.currentLine : Int) + 1 ≤ (s0.lineLengths.length : Int) - 1) ∧
            s0.lineLengths.get? (s0.currentLine + 1) = some 0 then
          let s := moveToPosition s0 ((s0.currentLine : Int) + 1)
            ((jsGetNat s0.lineLengths (s0.currentLine + 1) : Nat) : Int)
          clearCurrentLineAndReturn s true
        else if s0.currentColumn = 0 ∧
            ((s0.currentLine : Int) = (s0.lineLengths.length : Int) - 1) ∧
            s0.lineLengths.get? s0.currentLine = some 0 then
          clearCurrentLineAndReturn s0 true
        else s0
      else
        if 0 < s0.cmd.length ∧ s0.cursorPosition < s0.cmd.length then
          let s := deleteCharWithWidthTracking s0 0 s0.cursorPosition
          let newCmd := s.cmd.take s.cursorPosition ++ s.cmd.drop (s.cursorPosition + 1)
          let s := { s with cmd := newCmd }
          let s := { s with multiLineBuffer := s.cmd }
          let s := fire s (str "\x1b[P")
          let newLen := jsGetNat s.lineLengths 0 - 1
          let s := { s with lineLengths := jsSet 0 s.lineLengths 0 newLen }
          renderRemainingLine s
        else s0
    else if data == str "\x1b[5~" then fire s0 (str "\x1b[5~")
    else if data == str "\x1b[6~" then fire s0 (str "\x1b[6~")
    else s0
  else if code == 9 then
    if s0.isMultiLine then
      let linePreviousContent := sliceAB s0.multiLineBuffer
        (jsGetNat s0.lineStartIndexes s0.currentLine)
        (jsGetNat s0.lineStartIndexes s0.currentLine + s0.currentColumn)
      let tabContents := s0.multiLineBuffer.take
        (jsGetNat s0.lineStartIndexes s0.currentLine + s0.currentColumn)
      let linePreviousSuggestions :=
        getTabSuggestions s0 remoteFiles linePreviousContent (some tabContents)
      if linePreviousSuggestions.length = 1 then
        let fixword := (linePreviousSuggestions.getD 0 []).drop linePreviousContent.length ++ [' ']
        let s := insertWidthsLoop s0 s0.currentLine s0.currentColumn fixword
        let pos := jsGetNat s.lineStartIndexes s.currentLine + s.currentColumn
        let newBuf := s.multiLineBuffer.take pos ++ fixword ++ s.multiLineBuffer.drop pos
        let s := { s with multiLineBuffer := newBuf }
        let newLen := jsGetNat s.lineLengths s.currentLine + fixword.length
        let s := { s with lineLengths := jsSet 0 s.lineLengths s.currentLine newLen }
        let s := { s with currentColumn := s.currentColumn + fixword.length,
                          cursorPosition := s.cursorPosition + fixword.length }
        let s := fire s fixword
        let shifted := mapFromIdx (s.currentLine + 1) (fun v => v + fixword.length)
          s.lineStartIndexes
        { s with lineStartIndexes := shifted }
      else if 1 < linePreviousSuggestions.length then
        let s := fire s0 (str "\r\n" ++
          List.intercalate (str "    ") linePreviousSuggestions ++ str "\r\n")
        let tabprompt := getPrompt s
        let s := fire s tabprompt
        (List.range s.lineLengths.length).foldl
          (fun t index =>
            let t := fire t (sliceAB t.multiLineBuffer (jsGetNat t.lineStartIndexes index)
              (jsGetNat t.lineStartIndexes index + jsGetNat t.lineLengths index))
            if index < t.currentLine then fire t (str "\r\n") else t) s
      else s0
    else
      let suggestions := getTabSuggestions s0 remoteFiles s0.cmd none
      if suggestions.length = 1 then
        let lastWord := ((splitWS s0.cmd).getLast?).getD []
        let fixword := (suggestions.getD 0 []).drop lastWord.length
        let s := insertWidthsLoop s0 0 s0.cursorPosition fixword
        let s := { s with cmd := s.cmd ++ fixword }
        let s := { s with cursorPosition := s.cmd.length, currentColumn := s.cmd.length }
        let newLen := jsGetNat s.lineLengths 0 + fixword.length
        let s := { s with lineLengths := jsSet 0 s.lineLengths 0 newLen }
        fire s fixword
      else if 1 < suggestions.length then
        let s := fire s0 (str "\r\n" ++ List.intercalate (str "    ") suggestions ++ str "\r\n")
        let tabprompt := getPrompt s
        let s := fire s tabprompt
        fire s s.cmd
      else s0
  else if code == 12 then
    let s := fire s0 (str "\x1b[2J\x1b[0;0H")
    let s := resetTerminalState s
    let clearPrompt := getPrompt s
    fire s clearPrompt
  else
    if s0.cursorPosition < s0.cmd.length then
      let newCmd := s0.cmd.take s0.cursorPosition ++ data ++ s0.cmd.drop s0.cursorPosition
      let s := { s0 with cmd := newCmd }
      let s := { s with multiLineBuffer := s.cmd }
      let s := insertWidthsLoop s 0 s.cursorPosition data
      let s := { s with cursorPosition := s.cursorPosition + data.length,
                        currentColumn := s.currentColumn + data.length }
      let newLen := jsGetNat s.lineLengths s.currentLine + data.length
      let s := { s with lineLengths := jsSet 0 s.lineLengths s.currentLine newLen }
      let s := { s with lineStartIndexes := jsSet 0 s.lineStartIndexes s.currentLine 0 }
      let s := fire s data
      renderRemainingLine s
    else
      if containsNL data then
        let tmpdatas := splitNL data
        let s := if 1 < tmpdatas.length then { s0 with isMultiLine := true } else s0
        handleMultiLinePaste s tmpdatas
      else
        let s := { s0 with cmd := s0.cmd ++ data,
                           multiLineBuffer := s0.multiLineBuffer ++ data }
        let s := insertWidthsLoop s 0 s.cursorPosition data
        let s := { s with cursorPosition := s.cursorPosition + data.length,
                          currentColumn := s.currentColumn + data.length }
        let newLen := jsGetNat s.lineLengths s.currentLine + data.length
        let s := { s with lineLengths := jsSet 0 s.lineLengths s.currentLine newLen }
        let s := { s with lineStartIndexes := jsSet 0 s.lineStartIndexes s.currentLine 0 }
        fire s data

/-- JavaScript `s.replace(/\/\.\//g, '/')` (global, non-overlapping,
left-to-right). -/
def replaceDotSlash : Str → Str
  | '/' :: '.' :: '/' :: rest => '/' :: replaceDotSlash rest
  | c :: rest => c :: replaceDotSlash rest
  | [] => []

/-- Try to match the regex `\/[^\/]+\/\.\.\//` at the head of the input,
returning the remainder after the match. -/
def upDirMatch (l : Str) : Option Str :=
  match l with
  | '/' :: rest =>
    let seg := rest.takeWhile (fun c => !(c == '/'))
    if seg.length = 0 then none
    else
      let after := rest.drop seg.length
      if jsStartsWith after (str "/../") then some (after.drop 4) else none
  | _ => none

/-- Worker for `replaceUpDir`. -/
def replUpGo : Nat → Str → Str
  | 0, s => s
  | _ + 1, [] => []
  | fuel + 1, c :: rest =>
    match upDirMatch (c :: rest) with
    | some remaining => '/' :: replUpGo fuel remaining
    | none => c :: replUpGo fuel rest

/-- JavaScript `s.replace(/\/[^\/]+\/\.\.\//g, '/')`. -/
def replaceUpDir (s : Str) : Str := replUpGo (s.length + 1) s

/-- The outcome of the one-shot `sshClient.exec` round trip used by
`getActualDirectoryAfterCd`: an exec error, or stream close with the
accumulated output and exit code. -/
inductive CdExec where
  | execError (msg : Str)
  | closed (output : Str) (code : Int)
  deriving Repr, DecidableEq

/-- The target-path resolution performed inline by `handleCdCommand` (home
shorthand, previous-directory shorthand, relative paths against the cached
working directory with `/./` and `x/../` normalization). -/
def resolveCdTarget (s : Term) (p : Str) : Str :=
  if p == str "~" then str "$HOME"
  else if p == str "-" then
    (if s.lastWorkingDirectory == str "~" then str "$HOME" else s.lastWorkingDirectory)
  else if !(jsStartsWith p (str "/")) then
    let t := if s.currentWorkingDirectory == str "~" then str "$HOME/" ++ p
      else s.currentWorkingDirectory ++ str "/" ++ p
    replaceUpDir (replaceDotSlash t)
  else p

/-- The source's `getActualDirectoryAfterCd`: build `cd "path" && pwd`,
record it as an issued one-shot command, and interpret the supplied round
trip result (exit code 0 resolves with the trimmed output). -/
def getActualDirectoryAfterCd (s : Term) (path : Str) (res : CdExec) :
    Term × Except Str Str :=
  if !s.sshConnected then (s, Except.error (str "SSH client not connected"))
  else
    let getNewDirCommand := str "cd \"" ++ path ++ str "\" && pwd"
    let s := { s with oneShotCmds := s.oneShotCmds ++ [getNewDirCommand] }
    match res with
    | CdExec.execError m => (s, Except.error m)
    | CdExec.closed output code =>
      if code = 0 then (s, Except.ok (jsTrim output))
      else (s, Except.error (str "cd command failed with code " ++ intChars code))

/-- The source's `handleCdCommand`.  The try/catch around the awaited round
trip becomes a match on the `Except` result: on success the directory cache
is updated and the cd command is forwarded to the interactive shell stream;
on failure an error is reported and the cache is left unchanged. -/
def handleCdCommand (s : Term) (p : Str) (res : CdExec) : Term :=
  if p = str "-" ∧ s.lastWorkingDirectory = [] then
    fire s (str "\r\nNo previous directory to switch to.\r\n")
  else
    let targetPath := resolveCdTarget s p
    match getActualDirectoryAfterCd s targetPath res with
    | (s1, Except.ok newDir) =>
      let s2 := { s1 with lastWorkingDirectory := s1.currentWorkingDirectory,
                          currentWorkingDirectory := newDir }
      if s2.sshConnected then send s2 (str "cd " ++ targetPath ++ str "\n") else s2
    | (s1, Except.error e) =>
      fire s1 (str "\r\nFailed to change directory: " ++ e ++ str "\r\n")

/-- The `stream.on('data')` handler installed by `connectSsh`: watch for the
alternate-screen enter/exit markers, toggle editor pass-through accordingly,
and echo the chunk to the terminal. -/
def processSshOutput (s : Term) (dataStr : Str) : Term :=
  let s := if containsSub (str "\x1b[?1049h") dataStr then { s with isEditorMode := true } else s
  let s := if containsSub (str "\x1b[?1049l") dataStr then { s with isEditorMode := false } else s
  fire s dataStr

/-- The session state created by the constructor (plus `open`/`connectSsh`
having succeeded when `connected` is true). -/
def initTerm (conn hostnameArg systemTypeArg : Str) (connected : Bool) : Term :=
  { connectionString := conn
    hostname := if hostnameArg == [] then
        (splitOnChar ':' ((splitOnChar '@' conn).getD 1 [])).headD []
      else hostnameArg
    systemType := systemTypeArg
    sshConnected := connected
    cmd := []
    isMultiLine := false
    multiLineBuffer := []
    isEditorMode := false
    editorBuffer := []
    cursorPosition := 0
    currentLine := 0
    currentColumn := 0
    lineLengths := [0]
    lineStartIndexes := [0]
    lineDisplayWidths := [[]]
    isInsertMode := false
    commandHistory := []
    historyIndex := -1
    currentWorkingDirectory := str "~"
    lastWorkingDirectory := str "~"
    screen := []
    sent := []
    events := []
    oneShotCmds := [] }

/-- Feed a sequence of input chunks through `handleInput` (with an empty
remote directory listing, which none of the traced inputs consult). -/
def runInputs (inputs : List Str) (s : Term) : Term :=
  inputs.foldl (fun t d => handleInput [] t d) s

/-- The backing-text slice belonging to line `i` of the multi-line buffer. -/
def lineSlice (s : Term) (i : Nat) : Str :=
  sliceAB s.multiLineBuffer (jsGetNat s.lineStartIndexes i)
    (jsGetNat s.lineStartIndexes i + jsGetNat s.lineLengths i)

/-- The spec invariant `lines[i+1].startOffset == lines[i].startOffset +
lines[i].length`. -/
def offsetsContiguous (s : Term) : Bool :=
  (List.range (s.lineStartIndexes.length - 1)).all (fun i =>
    jsGetNat s.lineStartIndexes (i + 1) == jsGetNat s.lineStartIndexes i +
      jsGetNat s.lineLengths i)

/-- The spec invariant `sum(widths) == length` for every line. -/
def widthsConsistent (s : Term) : Bool :=
  (List.range s.lineLengths.length).all (fun i =>
    (s.lineDisplayWidths.getD i []).sum == jsGetNat s.lineLengths i)

/-- The concatenation of all lines' backing-text slices, in order. -/
def linesConcat (s : Term) : Str :=
  ((List.range s.lineLengths.length).map (lineSlice s)).flatten

/-- The default session used by the concrete traces: connecting as root,
default system flavor, shell channel established. -/
def baseTerm : Term := initTerm (str "root@h") [] [] true

/-- The typed inputs of the C1 failing trace: type `a`, press the
continuation backslash, type `b` on the continuation line, press Up, then
an input chunk `xy` of two characters arrives with the cursor mid-buffer. -/
def c1Inputs : List Str := [str "a", str "\\", str "b", str "\x1b[A", str "xy"]

/-- The C1 trace final state. -/
def c1Fin : Term := runInputs c1Inputs baseTerm

/-- C1: the Edit Buffer invariants do not survive every insert/delete
sequence.  After typing `a`, backslash, `b`, Up-arrow, then a two-character
chunk `xy` inserted mid-buffer, the code shifts the later line's start
offset by a fixed 1 (not by the inserted count 2): the backing text is
`axyb` with line lengths `[3, 1]` but start offsets `[0, 2]` instead of
`[0, 3]`, so `lines[1].startOffset ≠ lines[0].startOffset + lines[0].length`
and the concatenation of the recorded line slices is `axyy ≠ axyb`.  The
per-line width sums do remain consistent on this trace. -/
theorem c1_offset_shift_divergence :
    offsetsContiguous c1Fin = false ∧
    linesConcat c1Fin ≠ c1Fin.multiLineBuffer ∧
    widthsConsistent c1Fin = true ∧
    c1Fin.multiLineBuffer = str "axyb" ∧
    c1Fin.lineStartIndexes = [0, 2] ∧
    c1Fin.lineLengths = [3, 1] ∧
    linesConcat c1Fin = str "axyy" := by decide

/-- The inputs typing `echo hi` followed by the continuation backslash. -/
def c2InputsA : List Str :=
  [str "e", str "c", str "h", str "o", str " ", str "h", str "i", str "\\"]

/-- The inputs typing `there` followed by Enter. -/
def c2InputsB : List Str := [str "t", str "h", str "e", str "r", str "e", str "\r"]

/-- The state after `echo hi` and the continuation marker. -/
def c2Mid : Term := runInputs c2InputsA baseTerm

/-- The state after the whole C2 scenario. -/
def c2Fin : Term := runInputs c2InputsB c2Mid

/-- C2 counterexample: the scenario submits `echo hithere` (the multi-line
buffer stores no separator between lines and is submitted as-is), not the
claimed `echo hi\nthere`; the single transport write differs from the
claimed one. -/
theorem c2_counterexample :
    c2Fin.sent = [str "echo hithere\n"] ∧
    str "echo hithere\n" ≠ str "echo hi\nthere\n" := by decide

/-- C2 amended: typing `echo hi` then backslash stores one line `echo hi`,
emits the continuation prompt and enters MultiLine; typing `there` then
Enter submits the concatenation `echo hithere` (no separator) as a single
command to the transport and returns the session to Normal. -/
theorem c2_amended_submission :
    c2Mid.isMultiLine = true ∧
    lineSlice c2Mid 0 = str "echo hi" ∧
    c2Mid.lineLengths = [7, 0] ∧
    c2Mid.lineStartIndexes = [0, 7] ∧
    c2Mid.screen.getLast? = some (str "\r\n> ") ∧
    c2Fin.sent = [str "echo hithere\n"] ∧
    c2Fin.isMultiLine = false ∧
    c2Fin.isEditorMode = false := by decide

/-- The history after submitting `ls`, `ls`, `pwd`. -/
def c5Hist : Term :=
  addToHistory (addToHistory (addToHistory baseTerm (str "ls")) (str "ls")) (str "pwd")

/-- C5 counterexample: after submitting `ls`, `ls`, `pwd`, the first
backward navigation from the fresh cursor yields `pwd`, not `ls`. -/
theorem c5_counterexample :
    (getPrevCommandFromHistory c5Hist).2 = some (str "pwd") ∧
    some (str "pwd") ≠ some (str "ls") := by decide

/-- C5 amended: the second `ls` is not appended (consecutive duplicates are
suppressed on append), and navigating backward twice from the fresh,
non-navigating cursor yields `pwd` then `ls`. -/
theorem c5_amended_navigation :
    c5Hist.commandHistory = [str "ls", str "pwd"] ∧
    (getPrevCommandFromHistory c5Hist).2 = some (str "pwd") ∧
    (getPrevCommandFromHistory (getPrevCommandFromHistory c5Hist).1).2 = some (str "ls") := by
  decide

/-- The C6 trace: type `sys`, press Tab. -/
def c6Fin : Term := runInputs [str "s", str "y", str "s", str "\t"] baseTerm

/-- C6 counterexample: completing `sys` in single-line mode yields the
buffer `systemctl` with no trailing space, not `systemctl `. -/
theorem c6_counterexample :
    c6Fin.cmd = str "systemctl" ∧ str "systemctl" ≠ str "systemctl " := by decide

/-- C6 amended: with the buffer exactly `sys` and the cursor at its end,
Tab completes against the fixed command list, whose only entry starting
with `sys` is `systemctl`; the buffer becomes `systemctl` (no trailing
space) and the cursor is left immediately after the final character. -/
theorem c6_amended_completion :
    getTabSuggestions baseTerm [] (str "sys") none = [str "systemctl"] ∧
    c6Fin.cmd = str "systemctl" ∧
    c6Fin.cursorPosition = c6Fin.cmd.length ∧
    c6Fin.cursorPosition = 9 ∧
    c6Fin.currentColumn = 9 := by decide

/-- A session that entered editor pass-through by submitting `vim a` and
then received the raw chunk `abc` (forwarded verbatim, no exit pattern). -/
def c4Editor : Term :=
  runInputs [str "v", str "i", str "m", str " ", str "a", str "\r", str "abc"] baseTerm

/-- The same session after the transport output carried the
alternate-screen-exit marker. -/
def c4AfterMarker : Term := processSshOutput c4Editor (str "\x1b[?1049l")

/-- C4 counterexample: on the alternate-screen-exit-marker path the session
does return to Normal, but the accumulated pass-through buffer is NOT
cleared (it still holds `abc`) and the edit state is not reset, contrary to
the claim that the buffer is cleared on every exit. -/
theorem c4_counterexample :
    c4Editor.isEditorMode = true ∧
    c4Editor.editorBuffer = str "abc" ∧
    c4Editor.sent = [str "vim a\n", str "abc"] ∧
    c4AfterMarker.isEditorMode = false ∧
    c4AfterMarker.editorBuffer = str "abc" ∧
    str "abc" ≠ ([] : Str) := by decide

/-- An in-range list read yields `some` of the defaulted read. -/
theorem get?_eq_some_getD (l : List Nat) (i : Nat) (h : i < l.length) :
    l.get? i = some (l.getD i 0) := by
  induction l generalizing i with
  | nil => simp at h
  | cons x xs ih =>
    cases i with
    | zero => rfl
    | succ n => simpa using ih n (by simpa using h)

/-- Reading just past a list prefix returns the splice point element. -/
theorem getD_append_len (a b : Str) (c d : Char) : (a ++ c :: b).getD a.length d = c := by
  induction a with
  | nil => rfl
  | cons x xs ih => simpa using ih

/-- A character in the CJK ranges has display width 2. -/
theorem width_two_of_cjk (c : Char)
    (h : (0x4E00 ≤ c.toNat ∧ c.toNat ≤ 0x9FFF) ∨ (0x3400 ≤ c.toNat ∧ c.toNat ≤ 0x4DBF)) :
    getCharDisplayWidth c = 2 := by
  unfold getCharDisplayWidth
  exact if_pos h

/-- The rendered two-column left-move escape. -/
theorem escN_two_D : escN 2 'D' = str "\x1b[2D" := by decide

/-- C3: submitting a directory change issues the one-shot round trip
`cd "resolved" && pwd`; on success (exit code 0) `workingDirectory` becomes
the trimmed output, `previousWorkingDirectory` becomes the old value, and
`cd resolved` is forwarded to the interactive shell stream; on failure
(nonzero exit code or exec error) an error is reported inline and both
directory caches and the shell stream are left unchanged. -/
theorem c3_cd_roundtrip_atomic (s : Term) (p out m : Str) (code : Int)
    (hconn : s.sshConnected = true)
    (hprev : ¬(p = str "-" ∧ s.lastWorkingDirectory = [])) :
    ((handleCdCommand s p (CdExec.closed out 0)).currentWorkingDirectory = jsTrim out ∧
     (handleCdCommand s p (CdExec.closed out 0)).lastWorkingDirectory =
       s.currentWorkingDirectory ∧
     (handleCdCommand s p (CdExec.closed out 0)).oneShotCmds =
       s.oneShotCmds ++ [str "cd \"" ++ resolveCdTarget s p ++ str "\" && pwd"] ∧
     (handleCdCommand s p (CdExec.closed out 0)).sent =
       s.sent ++ [str "cd " ++ resolveCdTarget s p ++ str "\n"]) ∧
    (code ≠ 0 →
     (handleCdCommand s p (CdExec.closed out code)).currentWorkingDirectory =
       s.currentWorkingDirectory ∧
     (handleCdCommand s p (CdExec.closed out code)).lastWorkingDirectory =
       s.lastWorkingDirectory ∧
     (handleCdCommand s p (CdExec.closed out code)).sent = s.sent ∧
     (handleCdCommand s p (CdExec.closed out code)).screen =
       s.screen ++ [str "\r\nFailed to change directory: " ++
         (str "cd command failed with code " ++ intChars code) ++ str "\r\n"]) ∧
    ((handleCdCommand s p (CdExec.execError m)).currentWorkingDirectory =
       s.currentWorkingDirectory ∧
     (handleCdCommand s p (CdExec.execError m)).lastWorkingDirectory =
       s.lastWorkingDirectory ∧
     (handleCdCommand s p (CdExec.execError m)).sent = s.sent) := by
  unfold handleCdCommand getActualDirectoryAfterCd
  refine ⟨?_, ?_, ?_⟩
  · simp [hprev, hconn, send]
  · intro hcode
    rw [if_neg hprev]
    simp only [hconn]
    simp [if_neg hcode, fire]
  · rw [if_neg hprev]
    simp only [hconn]
    simp [fire]

/-- C3 witness: `cd /tmp` with a successful round trip returning `/tmp`
updates the cache to `/tmp` and remembers `~`; a failing round trip leaves
both caches at `~`. -/
theorem c3_cd_roundtrip_atomic_witness :
    baseTerm.sshConnected = true ∧
    ¬(str "/tmp" = str "-" ∧ baseTerm.lastWorkingDirectory = []) ∧
    ((handleCdCommand baseTerm (str "/tmp") (CdExec.closed (str "/tmp\n") 0)).currentWorkingDirectory =
       jsTrim (str "/tmp\n") ∧
     (handleCdCommand baseTerm (str "/tmp") (CdExec.closed (str "/tmp\n") 0)).lastWorkingDirectory =
       baseTerm.currentWorkingDirectory ∧
     (handleCdCommand baseTerm (str "/tmp") (CdExec.closed (str "/tmp\n") 0)).oneShotCmds =
       baseTerm.oneShotCmds ++ [str "cd \"" ++ resolveCdTarget baseTerm (str "/tmp") ++ str "\" && pwd"] ∧
     (handleCdCommand baseTerm (str "/tmp") (CdExec.closed (str "/tmp\n") 0)).sent =
       baseTerm.sent ++ [str "cd " ++ resolveCdTarget baseTerm (str "/tmp") ++ str "\n"]) ∧
    ((1 : Int) ≠ 0 →
     (handleCdCommand baseTerm (str "/tmp") (CdExec.closed (str "/tmp\n") 1)).currentWorkingDirectory =
       baseTerm.currentWorkingDirectory ∧
     (handleCdCommand baseTerm (str "/tmp") (CdExec.closed (str "/tmp\n") 1)).lastWorkingDirectory =
       baseTerm.lastWorkingDirectory ∧
     (handleCdCommand baseTerm (str "/tmp") (CdExec.closed (str "/tmp\n") 1)).sent = baseTerm.sent ∧
     (handleCdCommand baseTerm (str "/tmp") (CdExec.closed (str "/tmp\n") 1)).screen =
       baseTerm.screen ++ [str "\r\nFailed to change directory: " ++
         (str "cd command failed with code " ++ intChars 1) ++ str "\r\n"]) :=
  ⟨by decide, by decide,
   (c3_cd_roundtrip_atomic baseTerm (str "/tmp") (str "/tmp\n") [] 1
     (by decide) (by decide)).1,
   fun h => ((c3_cd_roundtrip_atomic baseTerm (str "/tmp") (str "/tmp\n") [] 1
     (by decide) (by decide)).2.1) h⟩

/-- The single-line state with the cursor immediately after the character
`c`, as required by the C7 scenario. -/
def c7State (s : Term) (a b : Str) (c : Char) : Term :=
  { s with
    isEditorMode := false
    isMultiLine := false
    cmd := a ++ c :: b
    cursorPosition := a.length + 1 }

/-- C7: for every character in the CJK ideograph ranges (the characters the
Width Model classifies as display-width 2), a left-arrow received in
single-line mode with the cursor immediately after that character emits the
two-column move `ESC[2D` (not a one-column move) and steps the logical
cursor back by one character. -/
theorem c7_wide_char_left_arrow (s : Term) (a b : Str) (c : Char)
    (hwide : (0x4E00 ≤ c.toNat ∧ c.toNat ≤ 0x9FFF) ∨
             (0x3400 ≤ c.toNat ∧ c.toNat ≤ 0x4DBF)) :
    (handleInput [] (c7State s a b c) (str "\x1b[D")).screen =
      s.screen ++ [str "\x1b[2D"] ∧
    (handleInput [] (c7State s a b c) (str "\x1b[D")).cursorPosition = a.length := by
  have hc : jsCharAt (a ++ c :: b) a.length = c := getD_append_len a b c (Char.ofNat 0)
  unfold handleInput c7State
  simp +decide [hc, width_two_of_cjk c hwide, escN_two_D, fire]

/-- C7 witness: with the single-line buffer holding the width-2 character
`中` and the cursor after it, a left-arrow emits `ESC[2D` and moves the
cursor to position 0. -/
theorem c7_wide_char_left_arrow_witness :
    ((0x4E00 ≤ '中'.toNat ∧ '中'.toNat ≤ 0x9FFF) ∨
     (0x3400 ≤ '中'.toNat ∧ '中'.toNat ≤ 0x4DBF)) ∧
    ((handleInput [] (c7State baseTerm [] [] '中') (str "\x1b[D")).screen =
      baseTerm.screen ++ [str "\x1b[2D"] ∧
     (handleInput [] (c7State baseTerm [] [] '中') (str "\x1b[D")).cursorPosition =
      ([] : Str).length) :=
  ⟨by decide, c7_wide_char_left_arrow baseTerm [] [] '中' (by decide)⟩

/-- C8: whenever a chunk of remote shell output contains the
alternate-screen-enter marker `ESC[?1049h` (and no exit marker, which would
itself be an exit condition), the session switches into editor pass-through
from any prior state — no recognized full-screen command need have been
submitted — and while in pass-through every input chunk is forwarded
verbatim to the transport. -/
theorem c8_alt_screen_enter_passthrough (s s2 : Term) (out d : Str)
    (henter : containsSub (str "\x1b[?1049h") out = true)
    (hnoexit : containsSub (str "\x1b[?1049l") out = false)
    (hed : s2.isEditorMode = true) (hconn : s2.sshConnected = true) :
    (processSshOutput s out).isEditorMode = true ∧
    (handleInput [] s2 d).sent = s2.sent ++ [d] := by
  constructor
  · unfold processSshOutput
    simp [henter, hnoexit, fire]
  · unfold handleInput
    by_cases hdet : detectEditorExitCommand (s2.editorBuffer ++ d) = true
    · simp [hed, hdet, hconn, resetTerminalState, pushEv, send, fire]
    · simp [hed, hdet, hconn, resetTerminalState, pushEv, send, fire]

/-- C8 witness: a Normal-state session receives output containing
`ESC[?1049h` and enters pass-through; a pass-through session forwards the
chunk `x` verbatim. -/
theorem c8_alt_screen_enter_passthrough_witness :
    containsSub (str "\x1b[?1049h") (str "ab\x1b[?1049hcd") = true ∧
    containsSub (str "\x1b[?1049l") (str "ab\x1b[?1049hcd") = false ∧
    c4Editor.isEditorMode = true ∧
    c4Editor.sshConnected = true ∧
    ((processSshOutput baseTerm (str "ab\x1b[?1049hcd")).isEditorMode = true ∧
     (handleInput [] c4Editor (str "x")).sent = c4Editor.sent ++ [str "x"]) :=
  ⟨by decide, by decide, by decide, by decide,
   c8_alt_screen_enter_passthrough baseTerm c4Editor (str "ab\x1b[?1049hcd") (str "x")
     (by decide) (by decide) (by decide) (by decide)⟩

/-- C9: recording an empty or whitespace-only submission leaves the whole
history store (sequence and navigation cursor alike) unchanged; the
all-entries-non-blank invariant is preserved by recording any submission,
and backward/forward navigation never changes the stored sequence. -/
theorem c9_history_nonblank (s : Term) (c0 : Str)
    (hblank : jsTrim c0 = [])
    (hinv : ∀ x ∈ s.commandHistory, jsTrim x ≠ []) :
    addToHistory s c0 = s ∧
    (∀ c, ∀ x ∈ (addToHistory s c).commandHistory, jsTrim x ≠ []) ∧
    (getPrevCommandFromHistory s).1.commandHistory = s.commandHistory ∧
    (getNextCommandFromHistory s).1.commandHistory = s.commandHistory := by
  refine ⟨?_, ?_, ?_, ?_⟩
  · unfold addToHistory
    simp [hblank]
  · intro c x hx
    unfold addToHistory at hx
    by_cases h : jsTrim c ≠ [] ∧ s.commandHistory.getLast? ≠ some c
    · rw [if_pos h] at hx
      simp only [List.mem_append, List.mem_singleton] at hx
      cases hx with
      | inl h1 => exact hinv x h1
      | inr h2 => exact h2 ▸ h.1
    · rw [if_neg h] at hx
      exact hinv x hx
  · unfold getPrevCommandFromHistory
    by_cases h : s.commandHistory.length == 0 <;> simp [h]
  · unfold getNextCommandFromHistory
    by_cases h : (s.commandHistory.length == 0 || decide (s.historyIndex < 0)) = true <;>
      simp [h]

/-- C9 witness: recording the whitespace-only submission `  ` on a session
whose history is `[ls]` changes nothing. -/
theorem c9_history_nonblank_witness :
    jsTrim (str "  ") = [] ∧
    (∀ x ∈ (addToHistory baseTerm (str "ls")).commandHistory, jsTrim x ≠ []) ∧
    addToHistory (addToHistory baseTerm (str "ls")) (str "  ") =
      addToHistory baseTerm (str "ls") :=
  ⟨by decide, by decide,
   (c9_history_nonblank (addToHistory baseTerm (str "ls")) (str "  ")
     (by decide) (by decide)).1⟩

/-- The MultiLine state with the cursor at column 0, as in the C10 claim. -/
def c10State (s : Term) : Term :=
  { s with
    isEditorMode := false
    isMultiLine := true
    currentColumn := 0 }

/-- C10: in MultiLine mode, Backspace with the cursor at column 0 of a line
whose recorded length is nonzero is a complete no-op — the buffer, every
per-line table, the cursor and the session mode are all unchanged (the
line-join branch of the source is commented out). -/
theorem c10_backspace_col0_noop (s : Term)
    (hin : s.currentLine < s.lineLengths.length)
    (hlen : jsGetNat s.lineLengths s.currentLine ≠ 0) :
    handleInput [] (c10State s) (str "\x7f") = c10State s := by
  have hq : s.lineLengths.get? s.currentLine = some (jsGetNat s.lineLengths s.currentLine) :=
    get?_eq_some_getD s.lineLengths s.currentLine hin
  have hne : ¬ s.lineLengths.get? s.currentLine = some 0 := by
    rw [hq]
    intro h
    exact hlen (Option.some.injEq _ _ ▸ h)
  have hne2 : ¬ s.lineLengths[s.currentLine]? = some 0 := by
    simpa [List.get?_eq_getElem?] using hne
  unfold handleInput c10State
  by_cases hb : 0 < s.multiLineBuffer.length <;>
    simp +decide [hb, hne, hne2]

/-- C10 witness: a two-line buffer `ab` with the cursor at column 0 of the
second (nonempty) line absorbs a Backspace with no change at all. -/
theorem c10_backspace_col0_noop_witness :
    ({ baseTerm with
        multiLineBuffer := str "ab"
        currentLine := 1
        lineLengths := [1, 1]
        lineStartIndexes := [0, 1]
        lineDisplayWidths := [[1], [1]] } : Term).currentLine <
      ({ baseTerm with
        multiLineBuffer := str "ab"
        currentLine := 1
        lineLengths := [1, 1]
        lineStartIndexes := [0, 1]
        lineDisplayWidths := [[1], [1]] } : Term).lineLengths.length ∧
    handleInput [] (c10State { baseTerm with
        multiLineBuffer := str "ab"
        currentLine := 1
        lineLengths := [1, 1]
        lineStartIndexes := [0, 1]
        lineDisplayWidths := [[1], [1]] }) (str "\x7f") =
      c10State { baseTerm with
        multiLineBuffer := str "ab"
        currentLine := 1
        lineLengths := [1, 1]
        lineStartIndexes := [0, 1]
        lineDisplayWidths := [[1], [1]] } :=
  ⟨by decide,
   c10_backspace_col0_noop { baseTerm with
        multiLineBuffer := str "ab"
        currentLine := 1
        lineLengths := [1, 1]
        lineStartIndexes := [0, 1]
        lineDisplayWidths := [[1], [1]] } (by decide) (by decide)⟩

/-- C4 amended: in editor pass-through every input chunk is forwarded to
the transport unmodified.  The session leaves pass-through in exactly two
ways: when the accumulated pass-through buffer (with the new chunk) matches
a known exit pattern, the buffer is cleared and the whole edit state reset;
when the transport output contains the alternate-screen-exit marker
`ESC[?1049l`, only the mode flag returns to Normal — the pass-through
buffer and edit state are left as they were.  A chunk matching no exit
pattern keeps the session in pass-through with the chunk appended. -/
theorem c4_amended_passthrough_exit (s t : Term) (d d2 out : Str)
    (hconn : s.sshConnected = true) (hed : s.isEditorMode = true)
    (hexit : detectEditorExitCommand (s.editorBuffer ++ d) = true)
    (hnoexit : detectEditorExitCommand (s.editorBuffer ++ d2) = false)
    (hmark : containsSub (str "\x1b[?1049l") out = true) :
    ((handleInput [] s d).sent = s.sent ++ [d] ∧
     (handleInput [] s d).isEditorMode = false ∧
     (handleInput [] s d).editorBuffer = [] ∧
     (handleInput [] s d).cmd = [] ∧
     (handleInput [] s d).multiLineBuffer = [] ∧
     (handleInput [] s d).isMultiLine = false) ∧
    ((handleInput [] s d2).sent = s.sent ++ [d2] ∧
     (handleInput [] s d2).isEditorMode = true ∧
     (handleInput [] s d2).editorBuffer = s.editorBuffer ++ d2) ∧
    ((processSshOutput t out).isEditorMode = false ∧
     (processSshOutput t out).editorBuffer = t.editorBuffer) := by
  refine ⟨?_, ?_, ?_⟩
  · unfold handleInput
    simp [hed, hexit, hconn, resetTerminalState, pushEv, send]
  · unfold handleInput
    simp [hed, hnoexit, hconn, send]
  · unfold processSshOutput
    by_cases hh : containsSub (str "\x1b[?1049h") out = true <;>
      simp [hh, hmark, fire]

/-- C4 amended witness: the `vim a` session with pass-through buffer `abc`
receives `:wq` + newline (exit pattern: full reset), or `x` (stays in
pass-through), or the alternate-screen-exit marker in the output (mode flag
only, buffer kept). -/
theorem c4_amended_passthrough_exit_witness :
    c4Editor.sshConnected = true ∧
    c4Editor.isEditorMode = true ∧
    detectEditorExitCommand (c4Editor.editorBuffer ++ str ":wq\n") = true ∧
    detectEditorExitCommand (c4Editor.editorBuffer ++ str "x") = false ∧
    containsSub (str "\x1b[?1049l") (str "\x1b[?1049l") = true ∧
    (((handleInput [] c4Editor (str ":wq\n")).sent = c4Editor.sent ++ [str ":wq\n"] ∧
      (handleInput [] c4Editor (str ":wq\n")).isEditorMode = false ∧
      (handleInput [] c4Editor (str ":wq\n")).editorBuffer = [] ∧
      (handleInput [] c4Editor (str ":wq\n")).cmd = [] ∧
      (handleInput [] c4Editor (str ":wq\n")).multiLineBuffer = [] ∧
      (handleInput [] c4Editor (str ":wq\n")).isMultiLine = false) ∧
     ((handleInput [] c4Editor (str "x")).sent = c4Editor.sent ++ [str "x"] ∧
      (handleInput [] c4Editor (str "x")).isEditorMode = true ∧
      (handleInput [] c4Editor (str "x")).editorBuffer = c4Editor.editorBuffer ++ str "x") ∧
     ((processSshOutput c4Editor (str "\x1b[?1049l")).isEditorMode = false ∧
      (processSshOutput c4Editor (str "\x1b[?1049l")).editorBuffer = c4Editor.editorBuffer)) :=
  ⟨by decide, by decide, by decide, by decide, by decide,
   c4_amended_passthrough_exit c4Editor c4Editor (str ":wq\n") (str "x") (str "\x1b[?1049l")
     (by decide) (by decide) (by decide) (by decide) (by decide)⟩
